import Mathlib

/-!
Shallow embedding of the asio-grpc execution-engine core
(`src/agrpc/detail/grpc_context_definition.hpp`,
`src/agrpc/detail/high_level_client_sender.hpp`) and of the high-level
client sender implementations, together with theorems settling the
specification claims about them.

Machine integers: `outstanding_work_` is a `std::atomic_long`; the engine
only ever increments and decrements it by one and the spec treats it as a
signed mathematical counter, so it is embedded as `Int`.  All stateful
C++ members become fields of an explicit state record that every embedded
member function threads through.
-/

namespace AsioGrpc

/-- One `detail::ListablePoolResource` memory arena.  The engine never
inspects its contents, only creates and deletes them, so the embedding
carries no data. -/
structure ListablePoolResource where
  mk' ::
deriving DecidableEq, Repr

/-- State of one `agrpc::GrpcContext`:
`outstanding_work_` (`std::atomic_long`), `stopped_` (`std::atomic_bool`),
`shutdown_` (`std::atomic_bool`), `multithreaded_` (`bool`),
`memory_resources_` (intrusive list of pool resources), the `active`
flag of `remote_work_queue_` (`detail::AtomicIntrusiveQueue`), and a
counter of how many times the work alarm has been fired
(`GrpcContextImplementation::trigger_work_alarm`). -/
structure GrpcContext where
  outstanding_work : Int
  stopped : Bool
  shutdown : Bool
  multithreaded : Bool
  memory_resources : List ListablePoolResource
  remoteQueueActive : Bool
  workAlarmCount : Nat
deriving DecidableEq, Repr

/-- `AtomicIntrusiveQueue::try_mark_active()`: transitions the remote
queue's flag from inactive to active, returning whether the transition
happened. -/
def tryMarkActive (c : GrpcContext) : Bool × GrpcContext :=
  if c.remoteQueueActive then (false, c)
  else (true, { c with remoteQueueActive := true })

/-- `GrpcContext::stop()` (grpc_context_definition.hpp:205-212).
`runningInThisThread` models
`GrpcContextImplementation::running_in_this_thread(*this)` for the
calling thread.  The C++ `&&` chain short-circuits: `try_mark_active`
runs only when the exchange returned `false` and the caller is not the
loop thread, and the alarm fires only when the transition succeeded. -/
def GrpcContext.stop (c : GrpcContext) (runningInThisThread : Bool) : GrpcContext :=
  let old := c.stopped
  let c := { c with stopped := true }
  if !old && !runningInThisThread then
    let (marked, c) := tryMarkActive c
    if marked then { c with workAlarmCount := c.workAlarmCount + 1 } else c
  else c

/-- `GrpcContext::reset()` (grpc_context_definition.hpp:214). -/
def GrpcContext.reset (c : GrpcContext) : GrpcContext :=
  { c with stopped := false }

/-- `GrpcContext::is_stopped()` (grpc_context_definition.hpp:216). -/
def GrpcContext.is_stopped (c : GrpcContext) : Bool :=
  c.stopped

/-- `GrpcContext::work_started()` (grpc_context_definition.hpp:224):
`outstanding_work_.fetch_add(1)`. -/
def GrpcContext.work_started (c : GrpcContext) : GrpcContext :=
  { c with outstanding_work := c.outstanding_work + 1 }

/-- `GrpcContext::work_finished()` (grpc_context_definition.hpp:226-232):
`fetch_sub(1)` returns the previous value; when that previous value was
`1` (so the decrement took the counter to zero) `stop()` is called. -/
def GrpcContext.work_finished (c : GrpcContext) (runningInThisThread : Bool) : GrpcContext :=
  let old := c.outstanding_work
  let c := { c with outstanding_work := old - 1 }
  if old = 1 then c.stop runningInThisThread else c

/-- `detail::create_resources` (grpc_context_definition.hpp:68-76): the
loop `for (i = 0; i != concurrency_hint; ++i) resources.push_front(new
ListablePoolResource())`, threading the intrusive list through each
iteration. -/
def create_resources (resources : List ListablePoolResource) :
    Nat → List ListablePoolResource
  | 0 => resources
  | n + 1 => create_resources (ListablePoolResource.mk' :: resources) n

/-- `detail::delete_resources` (grpc_context_definition.hpp:78-85):
`while (!resources.empty()) delete &resources.pop_front();`. -/
def delete_resources : List ListablePoolResource → List ListablePoolResource
  | [] => []
  | _ :: rest => delete_resources rest

/-- The delegated-to `GrpcContext` constructor
(grpc_context_definition.hpp:115-121): `multithreaded_{concurrency_hint >
1}` and `detail::create_resources(memory_resources_, concurrency_hint)`
on an initially empty intrusive list; the remaining fields start from
their member initializers (counter zero, flags false, remote queue
inactive). -/
def GrpcContext.construct (concurrency_hint : Nat) : GrpcContext :=
  { outstanding_work := 0
    stopped := false
    shutdown := false
    multithreaded := concurrency_hint > 1
    memory_resources := create_resources [] concurrency_hint
    remoteQueueActive := false
    workAlarmCount := 0 }

/-- The default constructor `GrpcContext()`
(grpc_context_definition.hpp:88) delegates with `concurrency_hint = 1`. -/
def GrpcContext.constructDefault : GrpcContext :=
  GrpcContext.construct 1

/-- Modelled from the spec:
`detail::GrpcContextImplementation::drain_completion_queue` is declared
but not defined under src/.  Spec §4.3: the destructor drains the
completion-event source fully *without* invoking any remaining
operations — they are abandoned.  The function consumes every pending
event and returns the list of completion handlers invoked while
draining, which is therefore empty. -/
def drain_completion_queue : List Nat → List Nat
  | [] => []
  | _ :: rest => drain_completion_queue rest

/-- The observable actions of `GrpcContext::~GrpcContext()`, in program
order. -/
inductive DtorAction where
  | stopCall
  | setShutdown
  | completionQueueShutdown
  | drainCompletionQueue
  | deleteResources
deriving DecidableEq, Repr

/-- `GrpcContext::~GrpcContext()` (grpc_context_definition.hpp:123-134):
`stop(); shutdown_.store(true); completion_queue_->Shutdown();
drain_completion_queue(*this); ... delete_resources(memory_resources_)`.
`pendingEvents` are the tags still in the completion queue at
destruction; the returned list is the completion handlers invoked during
destruction (per the drain model, none), together with the final state
and the action trace in execution order.  The asio
`execution_context::shutdown/destroy` steps are conditionally compiled
glue for the asio base class and carry no engine state. -/
def GrpcContext.destruct (c : GrpcContext) (runningInThisThread : Bool)
    (pendingEvents : List Nat) : GrpcContext × List Nat × List DtorAction :=
  let c1 := c.stop runningInThisThread
  let c2 := { c1 with shutdown := true }
  let invoked := drain_completion_queue pendingEvents
  let c3 := { c2 with memory_resources := delete_resources c2.memory_resources }
  (c3, invoked,
    [DtorAction.stopCall, DtorAction.setShutdown, DtorAction.completionQueueShutdown,
     DtorAction.drainCompletionQueue, DtorAction.deleteResources])

/-- Modelled from the spec: `detail::DoOneResult` is declared but not
defined under src/.  Its uses in grpc_context_definition.hpp are
`bool{result}` and `result.handled_completion_queue_event()`, and spec
§4.3 says the return value reports whether at least one operation of the
requested category (full engine vs. completion-source-only) was
processed in the iteration; so the result records whether a
completion-queue event was handled and whether local work (a locally
posted completion handler) was processed. -/
structure DoOneResult where
  handledCompletionQueueEvent : Bool
  processedLocalWork : Bool
deriving DecidableEq, Repr

/-- The `bool{result}` conversion used by
`GrpcContextLoopFunction::has_processed`: anything at all was
processed. -/
def DoOneResult.toBool (r : DoOneResult) : Bool :=
  r.handledCompletionQueueEvent || r.processedLocalWork

/-- `GrpcContextLoopFunction::has_processed`
(grpc_context_definition.hpp:41): `bool{result}`. -/
def grpcContextLoopFunction_has_processed (r : DoOneResult) : Bool :=
  r.toBool

/-- `GrpcContextCompletionQueueLoopFunction::has_processed`
(grpc_context_definition.hpp:54-57):
`result.handled_completion_queue_event()`. -/
def grpcContextCompletionQueueLoopFunction_has_processed (r : DoOneResult) : Bool :=
  r.handledCompletionQueueEvent

/-- Modelled from the spec:
`detail::GrpcContextImplementation::process_work` is declared but not
defined under src/.  Spec §4.3: the loop repeatedly invokes the supplied
loop function and its return value reports whether at least one
iteration processed something, judged by the loop function's
`has_processed`.  `iterations` is the sequence of `DoOneResult`s the
iterations produced. -/
def process_work (iterations : List DoOneResult)
    (has_processed : DoOneResult → Bool) : Bool :=
  iterations.any has_processed

/-- `GrpcContext::run()` (grpc_context_definition.hpp:136-144): loops a
`GrpcContextLoopFunction`. -/
def GrpcContext.run (iterations : List DoOneResult) : Bool :=
  process_work iterations grpcContextLoopFunction_has_processed

/-- `GrpcContext::run_until_impl` (grpc_context_definition.hpp:168-176):
loops a `GrpcContextLoopFunction` bounded by the deadline. -/
def GrpcContext.run_until (iterations : List DoOneResult) : Bool :=
  process_work iterations grpcContextLoopFunction_has_processed

/-- `GrpcContext::run_while` (grpc_context_definition.hpp:178-191):
loops a `GrpcContextLoopFunction` guarded by the condition (a failing
condition yields the empty `DoOneResult{}`). -/
def GrpcContext.run_while (iterations : List DoOneResult) : Bool :=
  process_work iterations grpcContextLoopFunction_has_processed

/-- `GrpcContext::poll()` (grpc_context_definition.hpp:158-166): loops a
`GrpcContextLoopFunction` with a zero deadline. -/
def GrpcContext.poll (iterations : List DoOneResult) : Bool :=
  process_work iterations grpcContextLoopFunction_has_processed

/-- `GrpcContext::run_completion_queue`
(grpc_context_definition.hpp:146-156): loops a
`GrpcContextCompletionQueueLoopFunction`. -/
def GrpcContext.run_completion_queue (iterations : List DoOneResult) : Bool :=
  process_work iterations grpcContextCompletionQueueLoopFunction_has_processed

/-- `GrpcContext::poll_completion_queue`
(grpc_context_definition.hpp:193-203): loops a
`GrpcContextCompletionQueueLoopFunction` with a zero deadline. -/
def GrpcContext.poll_completion_queue (iterations : List DoOneResult) : Bool :=
  process_work iterations grpcContextCompletionQueueLoopFunction_has_processed

/-! ## High-level client senders (high_level_client_sender.hpp) -/

/-- Bit mask of `asio::cancellation_type::terminal`. -/
def maskTerminal : Nat := 1

/-- Bit mask of `asio::cancellation_type::partial`. -/
def maskPartialType : Nat := 2

/-- Bit mask of `asio::cancellation_type::total`. -/
def maskTotalType : Nat := 4

/-- `detail::ClientContextCancellationFunction::operator()(asio::cancellation_type)`
(high_level_client_sender.hpp:66-72): returns whether
`client_context.TryCancel()` is called, i.e. whether
`type & (terminal | partial)` is non-zero. -/
def clientContextCancellationFunction (type : Nat) : Bool :=
  (type &&& (maskTerminal ||| maskPartialType)) != 0

/-- `detail::ClientContextCancellationFunction::operator()()`
(high_level_client_sender.hpp:63): unconditionally calls
`client_context.TryCancel()`. -/
def clientContextCancellationFunctionNullary : Bool :=
  true

/-- Per-call state of the high-level RPC wrapper (`agrpc::RPC` /
`detail::RPCClientClientStreamingBase` and friends): the `writes_done`
and `finished` flags driven by `set_writes_done()` / `set_finished()` /
`is_writes_done()`, and the `grpc::Status` slot filled in by a completed
`Finish` step, abstracted to its ok-ness (`none` while no `Finish` has
completed yet). -/
structure ClientRpcState where
  writes_done : Bool
  finished : Bool
  statusOk : Option Bool
deriving DecidableEq, Repr

/-- `rpc.set_writes_done()`. -/
def ClientRpcState.set_writes_done (rpc : ClientRpcState) : ClientRpcState :=
  { rpc with writes_done := true }

/-- `rpc.set_finished()`. -/
def ClientRpcState.set_finished (rpc : ClientRpcState) : ClientRpcState :=
  { rpc with finished := true }

/-- `rpc.is_writes_done()`. -/
def ClientRpcState.is_writes_done (rpc : ClientRpcState) : Bool :=
  rpc.writes_done

/-- `rpc.ok()`: `status_.ok()`; a default-constructed `grpc::Status` is
OK, so an unfilled slot reads as `true`. -/
def ClientRpcState.ok (rpc : ClientRpcState) : Bool :=
  rpc.statusOk.getD true

/-- The three statements of `detail::RPCAccess::client_initiate_finish`
(high_level_client_sender.hpp:50-56), as observable actions in program
order. -/
inductive FinishAction where
  | setFinished
  | workStarted
  | registerFinishTag
deriving DecidableEq, Repr

/-- `detail::RPCAccess::client_initiate_finish`
(high_level_client_sender.hpp:50-56): `rpc.set_finished();
rpc.grpc_context().work_started(); rpc.responder().Finish(&rpc.status(),
tag);`, threading the rpc and context state through each statement and
recording the action trace. -/
def client_initiate_finish (rpc : ClientRpcState) (ctx : GrpcContext) :
    ClientRpcState × GrpcContext × List FinishAction :=
  let rpc1 := rpc.set_finished
  let ctx1 := ctx.work_started
  (rpc1, ctx1, [FinishAction.setFinished, FinishAction.workStarted,
                FinishAction.registerFinishTag])

/-- What a sender implementation's `done(on_done, ok)` does: either
complete to the caller with a boolean result, complete with the RPC
object (successful start), complete with the stored `grpc::Status`
(unary), or call `detail::RPCAccess::client_initiate_finish`. -/
inductive DoneAction where
  | complete (ok : Bool)
  | completeRpc
  | completeStatus
  | initiateFinish
deriving DecidableEq, Repr

/-- `ClientUnaryRequestSenderImplementation::done`
(high_level_client_sender.hpp:107-111): ignores `ok` and completes with
the stored status (the unary `initiate` already registered `Finish`, so
the call is always finishing by the time `done` runs). -/
def unaryRequestDone (_ok : Bool) : DoneAction :=
  DoneAction.completeStatus

/-- `ClientClientStreamingRequestSenderImplementation::done`
(high_level_client_sender.hpp:175-186). -/
def clientStreamingStartDone (ok : Bool) : DoneAction :=
  if ok then DoneAction.completeRpc else DoneAction.initiateFinish

/-- `ClientServerStreamingRequestSenderImplementation::done`
(high_level_client_sender.hpp:215-226). -/
def serverStreamingStartDone (ok : Bool) : DoneAction :=
  if ok then DoneAction.completeRpc else DoneAction.initiateFinish

/-- `ClientBidirectionalStreamingRequestSenderImplementation::done`
(high_level_client_sender.hpp:256-267). -/
def bidiStreamingStartDone (ok : Bool) : DoneAction :=
  if ok then DoneAction.completeRpc else DoneAction.initiateFinish

/-- The generic
`ClientBidirectionalStreamingRequestSenderImplementation<GenericRPCType::CLIENT_STREAMING>::done`
(high_level_client_sender.hpp:294-305). -/
def genericBidiStreamingStartDone (ok : Bool) : DoneAction :=
  if ok then DoneAction.completeRpc else DoneAction.initiateFinish

/-- `ReadInitialMetadataSenderImplementation::done` at sub-state 0
(high_level_client_sender.hpp:322-333): the call is not yet finishing. -/
def readInitialMetadataDone0 (ok : Bool) : DoneAction :=
  if ok then DoneAction.complete true else DoneAction.initiateFinish

/-- `ReadInitialMetadataSenderImplementation::done` at sub-state 1
(high_level_client_sender.hpp:335-339): the automatic `Finish` issued by
sub-state 0 has completed; surface `false`. -/
def readInitialMetadataDone1 (_ok : Bool) : DoneAction :=
  DoneAction.complete false

/-- `ReadServerStreamingSenderImplementation::done` at sub-state 0
(high_level_client_sender.hpp:364-375). -/
def readServerStreamingDone0 (ok : Bool) : DoneAction :=
  if ok then DoneAction.complete true else DoneAction.initiateFinish

/-- `ReadServerStreamingSenderImplementation::done` at sub-state 1
(high_level_client_sender.hpp:377-381). -/
def readServerStreamingDone1 (_ok : Bool) : DoneAction :=
  DoneAction.complete false

/-- `WriteClientStreamingSenderImplementation::done` at sub-state 0
(high_level_client_sender.hpp:417-428): an ordinary (not last-message)
write completed. -/
def writeClientStreamingDone0 (ok : Bool) : DoneAction :=
  if ok then DoneAction.complete true else DoneAction.initiateFinish

/-- `WriteClientStreamingSenderImplementation::done` at sub-state 1
(high_level_client_sender.hpp:430-434): a last-message write completed;
always drive the call to `Finish`. -/
def writeClientStreamingDone1 (_ok : Bool) : DoneAction :=
  DoneAction.initiateFinish

/-- `WriteClientStreamingSenderImplementation::done` at sub-state 2
(high_level_client_sender.hpp:436-440): the `Finish` completed; surface
`rpc.ok()`. -/
def writeClientStreamingDone2 (rpc : ClientRpcState) (_ok : Bool) : DoneAction :=
  DoneAction.complete rpc.ok

/-- `ClientReadBidiStreamingSenderImplementation::done`
(high_level_client_sender.hpp:502-506): surfaces `ok` unchanged — no
automatic finish. -/
def bidiStreamingReadDone (ok : Bool) : DoneAction :=
  DoneAction.complete ok

/-- `ClientWriteBidiStreamingSenderImplementation::done`
(high_level_client_sender.hpp:538-542): surfaces `ok` unchanged — no
automatic finish. -/
def bidiStreamingWriteDone (ok : Bool) : DoneAction :=
  DoneAction.complete ok

/-- `ClientWritesDoneSenderImplementation::done`
(high_level_client_sender.hpp:564-569): `rpc.set_writes_done();
on_done(ok);`. -/
def writesDoneDone (rpc : ClientRpcState) (ok : Bool) : ClientRpcState × DoneAction :=
  (rpc.set_writes_done, DoneAction.complete ok)

/-- `grpc::WriteOptions`, abstracted to the only bit the senders read:
`is_last_message()`. -/
structure WriteOptions where
  last_message : Bool
deriving DecidableEq, Repr

/-- The tag a write `initiate` registers with the completion queue:
which `done` sub-state the completion event will be dispatched to. -/
inductive WriteTag where
  | subState0
  | subState1
  | plain
deriving DecidableEq, Repr

/-- `WriteClientStreamingSenderImplementation::initiate`
(high_level_client_sender.hpp:402-415): a last-message write calls
`rpc.set_writes_done()` and registers the write under sub-state 1; an
ordinary write registers under sub-state 0 and leaves the state alone.
The returned state is the state in effect when the tag is registered. -/
def writeClientStreamingInitiate (rpc : ClientRpcState) (options : WriteOptions) :
    ClientRpcState × WriteTag :=
  if options.last_message then (rpc.set_writes_done, WriteTag.subState1)
  else (rpc, WriteTag.subState0)

/-- `ClientWriteBidiStreamingSenderImplementation::initiate`
(high_level_client_sender.hpp:528-536): `if
(options.is_last_message()) rpc.set_writes_done();` then
`rpc.responder().Write(req, options, operation)`. -/
def bidiStreamingWriteInitiate (rpc : ClientRpcState) (options : WriteOptions) :
    ClientRpcState × WriteTag :=
  let rpc := if options.last_message then rpc.set_writes_done else rpc
  (rpc, WriteTag.plain)

/-- The tags `ClientFinishSenderImplementation` can register with the
completion queue: a `WritesDone` tag (dispatched to `done` sub-state 0)
or a `Finish` tag (dispatched to `done` sub-state 1). -/
inductive FinishTag where
  | writesDoneTag
  | finishTag
deriving DecidableEq, Repr

/-- `ClientFinishSenderImplementation::initiate`
(high_level_client_sender.hpp:452-464): when writes are already done,
`rpc.set_finished()` and register `Finish` under sub-state 1; otherwise
register `WritesDone` under sub-state 0. -/
def clientFinishInitiate (rpc : ClientRpcState) : ClientRpcState × FinishTag :=
  if rpc.is_writes_done then (rpc.set_finished, FinishTag.finishTag)
  else (rpc, FinishTag.writesDoneTag)

/-- `ClientFinishSenderImplementation::done` at sub-state 0
(high_level_client_sender.hpp:466-470): calls
`detail::RPCAccess::client_initiate_finish`, which sets `finished` and
registers the `Finish` tag under sub-state 1 (its `work_started` call
touches only the `GrpcContext`, tracked by `client_initiate_finish`
above). -/
def clientFinishDone0 (rpc : ClientRpcState) : ClientRpcState × FinishTag :=
  (rpc.set_finished, FinishTag.finishTag)

/-- `ClientFinishSenderImplementation::done` at sub-state 1
(high_level_client_sender.hpp:472-476): `on_done(rpc.ok())`. -/
def clientFinishDone1 (rpc : ClientRpcState) : Bool :=
  rpc.ok

/-- Modelled from the spec: delivery of a completed `Finish` tag.  The
completion-event source fills the `grpc::Status` that
`Finish(&rpc.status(), tag)` registered before delivering the tag;
`finishStatusOk` is that status's ok-ness. -/
def completeFinishTag (rpc : ClientRpcState) (finishStatusOk : Bool) : ClientRpcState :=
  { rpc with statusOk := some finishStatusOk }

/-- Modelled from the spec: the RPC wrapper's `finish` entry point and
the drive-to-completion of one `finish` invocation.  The guard is not
under src/ (only `ClientFinishSenderImplementation` is): spec §3 — the
wrapper "guards against ... finishing twice, by short-circuiting to an
already-known outcome instead of registering a second tag" — and §4.4 —
`initiate` "may fail synchronously by invoking the completion path
immediately ... when a call is already known to be terminally
finished".  On an already-finished call, complete immediately with the
known outcome `rpc.ok()` and register nothing; otherwise run
`clientFinishInitiate`/`clientFinishDone0`/`clientFinishDone1` (embedded
above from src) to completion, delivering each registered tag's
completion event in turn.  Returns the final wrapper state, the list of
tags registered with the completion queue by this invocation, and the
outcome delivered to the caller. -/
def runFinish (rpc : ClientRpcState) (finishStatusOk : Bool) :
    ClientRpcState × List FinishTag × Bool :=
  if rpc.finished then (rpc, [], rpc.ok)
  else
    match clientFinishInitiate rpc with
    | (rpc1, FinishTag.finishTag) =>
        let rpc2 := completeFinishTag rpc1 finishStatusOk
        (rpc2, [FinishTag.finishTag], clientFinishDone1 rpc2)
    | (rpc1, FinishTag.writesDoneTag) =>
        let (rpc2, _) := clientFinishDone0 rpc1
        let rpc3 := completeFinishTag rpc2 finishStatusOk
        (rpc3, [FinishTag.writesDoneTag, FinishTag.finishTag], clientFinishDone1 rpc3)

/-! ## Helper lemmas -/

lemma stop_eq (c : GrpcContext) (r : Bool) :
    c.stop r =
      if c.stopped = false ∧ r = false ∧ c.remoteQueueActive = false then
        { c with stopped := true, remoteQueueActive := true,
                 workAlarmCount := c.workAlarmCount + 1 }
      else { c with stopped := true } := by
  cases hs : c.stopped <;> cases r <;> cases hq : c.remoteQueueActive <;>
    simp [GrpcContext.stop, tryMarkActive, hs, hq]

lemma stop_stopped (c : GrpcContext) (r : Bool) : (c.stop r).stopped = true := by
  rw [stop_eq]; split <;> rfl

lemma stop_outstanding (c : GrpcContext) (r : Bool) :
    (c.stop r).outstanding_work = c.outstanding_work := by
  rw [stop_eq]; split <;> rfl

lemma set_stopped_eq_self (c : GrpcContext) (h : c.stopped = true) :
    { c with stopped := true } = c := by
  cases c; simp_all

lemma delete_resources_eq_nil (l : List ListablePoolResource) :
    delete_resources l = [] := by
  induction l with
  | nil => rfl
  | cons _ _ ih => simpa [delete_resources] using ih

lemma drain_completion_queue_eq_nil (l : List Nat) :
    drain_completion_queue l = [] := by
  induction l with
  | nil => rfl
  | cons _ _ ih => simpa [drain_completion_queue] using ih

lemma create_resources_length (n : Nat) :
    ∀ acc : List ListablePoolResource,
      (create_resources acc n).length = acc.length + n := by
  induction n with
  | zero => intro acc; simp [create_resources]
  | succ m ih =>
      intro acc
      rw [create_resources, ih]
      simp
      omega

/-! ## Claim theorems -/

/-- C1: `work_started()` increments the outstanding-work counter and
`work_finished()` decrements it; `work_finished()` calls `stop()`
exactly when its decrement takes the counter from one to zero (when the
previous value was not one the decremented state is returned untouched,
with no stop); hence a `work_started()` immediately followed by
`work_finished()` with no other outstanding work leaves the context
stopped (with the counter back at zero) before the next `run()`. -/
theorem work_counter_stops_on_zero (c : GrpcContext) (r : Bool) :
    (c.work_started.outstanding_work = c.outstanding_work + 1) ∧
    ((c.work_finished r).outstanding_work = c.outstanding_work - 1) ∧
    (c.outstanding_work = 1 →
      c.work_finished r = GrpcContext.stop { c with outstanding_work := 0 } r) ∧
    (c.outstanding_work ≠ 1 →
      c.work_finished r = { c with outstanding_work := c.outstanding_work - 1 }) ∧
    (c.outstanding_work = 0 → c.stopped = false →
      (c.work_started.work_finished r).is_stopped = true ∧
      (c.work_started.work_finished r).outstanding_work = 0) := by
  refine ⟨rfl, ?_, ?_, ?_, ?_⟩
  · by_cases h : c.outstanding_work = 1 <;>
      simp [GrpcContext.work_finished, h, stop_outstanding]
  · intro h
    simp [GrpcContext.work_finished, h]
  · intro h
    simp [GrpcContext.work_finished, h]
  · intro h0 hs
    constructor
    · simp [GrpcContext.work_finished, GrpcContext.work_started, GrpcContext.is_stopped,
            h0, stop_stopped]
    · simp [GrpcContext.work_finished, GrpcContext.work_started, h0, stop_outstanding]

/-- C1 witness: starting from a freshly constructed context (counter
zero, not stopped), one `work_started` followed by one `work_finished`
leaves the context stopped with the counter at zero. -/
theorem work_counter_stops_on_zero_witness :
    ((GrpcContext.construct 1).work_started.work_finished false).is_stopped = true ∧
    ((GrpcContext.construct 1).work_started.work_finished false).outstanding_work = 0 :=
  (work_counter_stops_on_zero (GrpcContext.construct 1) false).2.2.2.2 rfl rfl

/-- C2: `stop()` always sets the stopped flag; it marks the remote queue
active and fires the work alarm exactly when the flag was not already
set, the caller is not the thread running the loop, and the remote
queue's inactive-to-active transition succeeds (otherwise only the flag
is set); and a second `stop()` — from either kind of thread — changes
nothing: `stop` is idempotent. -/
theorem stop_flag_alarm_idempotent (c : GrpcContext) (r r' : Bool) :
    ((c.stop r).is_stopped = true) ∧
    (c.stop r =
      if c.stopped = false ∧ r = false ∧ c.remoteQueueActive = false then
        { c with stopped := true, remoteQueueActive := true,
                 workAlarmCount := c.workAlarmCount + 1 }
      else { c with stopped := true }) ∧
    ((c.stop r).stop r' = c.stop r) := by
  refine ⟨stop_stopped c r, stop_eq c r, ?_⟩
  rw [stop_eq (c.stop r)]
  have h : (c.stop r).stopped = true := stop_stopped c r
  rw [if_neg (by simp [h])]
  exact set_stopped_eq_self _ h

/-- C5: the destructor performs, in this order: `stop()`, set the
shutdown flag, shut down the completion queue, drain the completion
queue, delete all memory arenas; the drain invokes no completion
handler, and the final state is stopped, shut down and arena-free. -/
theorem destructor_ordering_and_abandonment (c : GrpcContext) (r : Bool)
    (pending : List Nat) :
    ((c.destruct r pending).2.2 =
      [DtorAction.stopCall, DtorAction.setShutdown, DtorAction.completionQueueShutdown,
       DtorAction.drainCompletionQueue, DtorAction.deleteResources]) ∧
    ((c.destruct r pending).2.1 = []) ∧
    ((c.destruct r pending).1.memory_resources = []) ∧
    ((c.destruct r pending).1.shutdown = true) ∧
    ((c.destruct r pending).1.is_stopped = true) := by
  refine ⟨rfl, ?_, ?_, rfl, ?_⟩
  · simp [GrpcContext.destruct, drain_completion_queue_eq_nil]
  · simp [GrpcContext.destruct, delete_resources_eq_nil]
  · simp [GrpcContext.destruct, GrpcContext.is_stopped, stop_stopped]

/-- C8: constructing a `GrpcContext` with concurrency hint `n` creates
exactly `n` memory-pool arenas, the default constructor uses hint 1,
the multithreaded flag is set exactly when `n > 1`, and destruction
deletes every created arena. -/
theorem construct_arenas_multithreaded (n : Nat) (r : Bool) (pending : List Nat) :
    ((GrpcContext.construct n).memory_resources.length = n) ∧
    ((GrpcContext.construct n).multithreaded = decide (n > 1)) ∧
    (GrpcContext.constructDefault = GrpcContext.construct 1) ∧
    (((GrpcContext.construct n).destruct r pending).1.memory_resources = []) := by
  refine ⟨?_, rfl, rfl, ?_⟩
  · simpa using create_resources_length n []
  · simp [GrpcContext.destruct, delete_resources_eq_nil]

/-- C3 counterexample: the claim includes the bidirectional-streaming
read step among the steps that automatically initiate finish when their
`done` observes `ok == false` on a call that is not already finishing,
but `ClientReadBidiStreamingSenderImplementation::done` invoked with
`ok == false` surfaces the failure to the caller instead of calling
`client_initiate_finish`. -/
theorem bidi_read_no_auto_finish_counterexample :
    bidiStreamingReadDone false = DoneAction.complete false ∧
    bidiStreamingReadDone false ≠ DoneAction.initiateFinish := by
  constructor
  · rfl
  · decide

/-- C3 (amended): every step listed except the bidirectional-streaming
read and write steps automatically initiates finish when its `done`
observes `ok == false` on a call that is not already finishing (streaming
starts, read-initial-metadata and server-streaming read at sub-state 0,
client-streaming write at sub-state 0; the unary request is already
finishing by construction and surfaces its stored status); the
bidirectional-streaming read and write steps instead surface `ok`
directly to the caller, and the sub-states at which the automatic
`Finish` is already in flight complete without a second finish. -/
theorem auto_finish_on_error_amended :
    (clientStreamingStartDone false = DoneAction.initiateFinish) ∧
    (serverStreamingStartDone false = DoneAction.initiateFinish) ∧
    (bidiStreamingStartDone false = DoneAction.initiateFinish) ∧
    (genericBidiStreamingStartDone false = DoneAction.initiateFinish) ∧
    (readInitialMetadataDone0 false = DoneAction.initiateFinish) ∧
    (readServerStreamingDone0 false = DoneAction.initiateFinish) ∧
    (writeClientStreamingDone0 false = DoneAction.initiateFinish) ∧
    (∀ ok, unaryRequestDone ok = DoneAction.completeStatus) ∧
    (∀ ok, readInitialMetadataDone1 ok = DoneAction.complete false) ∧
    (∀ ok, readServerStreamingDone1 ok = DoneAction.complete false) ∧
    (∀ ok, bidiStreamingReadDone ok = DoneAction.complete ok) ∧
    (∀ ok, bidiStreamingWriteDone ok = DoneAction.complete ok) := by
  exact ⟨rfl, rfl, rfl, rfl, rfl, rfl, rfl, fun _ => rfl, fun _ => rfl, fun _ => rfl,
         fun _ => rfl, fun _ => rfl⟩

/-- C4: after one `finish` invocation has completed on a call (whatever
the write state and whatever ok-ness the completion queue delivered),
the call is in the finished state, and a second `finish` invocation
leaves the state unchanged, registers no tag with the completion queue,
and yields the first invocation's already-known outcome. -/
theorem finish_twice_short_circuits (rpc : ClientRpcState) (b b' : Bool) :
    ((runFinish rpc b).1.finished = true) ∧
    (runFinish (runFinish rpc b).1 b' =
      ((runFinish rpc b).1, [], (runFinish rpc b).2.2)) := by
  by_cases hf : rpc.finished <;> by_cases hw : rpc.writes_done <;>
    simp [runFinish, clientFinishInitiate, clientFinishDone0, clientFinishDone1,
          completeFinishTag, ClientRpcState.is_writes_done, ClientRpcState.set_finished,
          ClientRpcState.ok, hf, hw]

/-- C6: a streaming write whose options carry the last-message flag has
the writes-done state set at the moment its tag is registered (and the
client-streaming variant registers it under the last-message sub-state),
while a write without the flag leaves the wrapper state — in particular
the writes-done flag — unchanged; this holds for both the
client-streaming and the bidirectional-streaming write steps. -/
theorem last_message_write_sets_writes_done (rpc : ClientRpcState)
    (options : WriteOptions) :
    ((writeClientStreamingInitiate rpc options).1.writes_done =
      (options.last_message || rpc.writes_done)) ∧
    ((writeClientStreamingInitiate rpc options).2 =
      if options.last_message then WriteTag.subState1 else WriteTag.subState0) ∧
    ((writeClientStreamingInitiate rpc options).1.finished = rpc.finished) ∧
    ((writeClientStreamingInitiate rpc options).1.statusOk = rpc.statusOk) ∧
    ((bidiStreamingWriteInitiate rpc options).1.writes_done =
      (options.last_message || rpc.writes_done)) ∧
    ((bidiStreamingWriteInitiate rpc options).1.finished = rpc.finished) ∧
    ((bidiStreamingWriteInitiate rpc options).1.statusOk = rpc.statusOk) ∧
    ((bidiStreamingWriteInitiate rpc options).2 = WriteTag.plain) := by
  cases h : options.last_message <;>
    simp [writeClientStreamingInitiate, bidiStreamingWriteInitiate,
          ClientRpcState.set_writes_done, h]

/-- C7: `run`, `run_until`, `run_while` and `poll` return `true` exactly
when at least one iteration processed an operation of any kind
(completion-queue event or locally posted handler), whereas
`run_completion_queue` and `poll_completion_queue` return `true` exactly
when at least one completion-queue event was handled — an iteration that
processed only local work does not count for the latter pair. -/
theorem run_return_value_reports_processed (its : List DoOneResult) :
    (GrpcContext.run its = true ↔
      ∃ x ∈ its, x.handledCompletionQueueEvent = true ∨ x.processedLocalWork = true) ∧
    (GrpcContext.run_until its = GrpcContext.run its) ∧
    (GrpcContext.run_while its = GrpcContext.run its) ∧
    (GrpcContext.poll its = GrpcContext.run its) ∧
    (GrpcContext.run_completion_queue its = true ↔
      ∃ x ∈ its, x.handledCompletionQueueEvent = true) ∧
    (GrpcContext.poll_completion_queue its = GrpcContext.run_completion_queue its) ∧
    (GrpcContext.run_completion_queue [DoOneResult.mk false true] = false) ∧
    (GrpcContext.run [DoOneResult.mk false true] = true) := by
  refine ⟨?_, rfl, rfl, rfl, ?_, rfl, by decide, by decide⟩
  · simp [GrpcContext.run, process_work, grpcContextLoopFunction_has_processed,
          DoOneResult.toBool, List.any_eq_true, Bool.or_eq_true]
  · simp [GrpcContext.run_completion_queue, process_work,
          grpcContextCompletionQueueLoopFunction_has_processed, List.any_eq_true]

/-- C9: `client_initiate_finish` performs, in order: mark the call
finished, increment the context's outstanding-work counter via
`work_started`, register the `Finish` tag — so the resulting rpc state
is finished before the finish completion event can be delivered, the
context holds one additional unit of outstanding work, and the context's
stopped flag is untouched. -/
theorem client_initiate_finish_holds_work (rpc : ClientRpcState) (ctx : GrpcContext) :
    (client_initiate_finish rpc ctx =
      (rpc.set_finished, ctx.work_started,
       [FinishAction.setFinished, FinishAction.workStarted,
        FinishAction.registerFinishTag])) ∧
    ((client_initiate_finish rpc ctx).1.finished = true) ∧
    ((client_initiate_finish rpc ctx).2.1.outstanding_work = ctx.outstanding_work + 1) ∧
    ((client_initiate_finish rpc ctx).2.1.stopped = ctx.stopped) := by
  exact ⟨rfl, rfl, rfl, rfl⟩

lemma cancellation_mask_iff (t : Nat) :
    t &&& 3 ≠ 0 ↔ (t &&& 1 ≠ 0 ∨ t &&& 2 ≠ 0) := by
  have h3 : t &&& 3 = t % 4 := by
    have h := Nat.and_pow_two_sub_one_eq_mod t 2
    norm_num at h
    exact h
  have h1 : t &&& 1 = t % 2 := Nat.and_one_is_mod t
  have h2 : t &&& 2 = (t.testBit 1).toNat * 2 := by
    have h := Nat.and_two_pow t 1
    norm_num at h
    exact h
  rw [h3, h1, h2, Nat.testBit_to_div_mod]
  norm_num
  by_cases hb : t / 2 % 2 = 1
  · simp [hb]
    omega
  · simp [hb]
    omega

/-- C10: the typed call operator of the per-step cancellation function
calls `TryCancel` on the client context exactly when the requested
cancellation type includes the terminal or partial bits; a request
carrying only the total bit performs no action; and the nullary call
operator always calls `TryCancel`. -/
theorem cancellation_function_mask_behavior (type : Nat) :
    (clientContextCancellationFunction type = true ↔
      (type &&& maskTerminal ≠ 0 ∨ type &&& maskPartialType ≠ 0)) ∧
    (clientContextCancellationFunction maskTotalType = false) ∧
    (clientContextCancellationFunctionNullary = true) := by
  refine ⟨?_, by decide, rfl⟩
  have hm : maskTerminal ||| maskPartialType = 3 := rfl
  simp only [clientContextCancellationFunction, hm, bne_iff_ne, ne_eq, maskTerminal,
             maskPartialType]
  exact cancellation_mask_iff type

end AsioGrpc
